import Mathlib

/-!
Verification development for the CryptoWatcher repository.

Shallow embedding of the TypeScript client (frontend/src) and, where the
backend engine is absent from the sources, of the behaviour described by the
specification.  JavaScript numbers are modelled as exact rationals (ℚ);
`null`/`undefined` and NaN escapes are modelled with `Option`; code that can
throw is modelled with `Except`.
-/

set_option maxHeartbeats 2000000

namespace CryptoWatcher

/-! ## Shared data model (frontend/src/services/api.ts, @types) -/

/-- `NotificationDirection` from the client types: 'rise' | 'fall' | 'both'. -/
inductive NotificationDirection where
  | rise
  | fall
  | both
deriving DecidableEq

/-- `NotificationTrigger` from the client types: 'stop-loss' | 'take-profit'. -/
inductive NotificationTrigger where
  | stopLoss
  | takeProfit
deriving DecidableEq

/-- `NotificationValueType` from the client types: 'percent' | 'absolute' | 'price'. -/
inductive NotificationValueType where
  | percent
  | absolute
  | price
deriving DecidableEq

/-! ## C10 — getPriceDecimals (frontend/src/common/utils/price.ts, lines 11-27) -/

/-- Embedding of `getPriceDecimals(price, cachedDecimals?)`: if a cached value is
supplied it is returned unchanged, otherwise the decimal count is computed from
the price by the threshold ladder of the source. -/
def getPriceDecimals (price : ℚ) (cachedDecimals : Option ℚ) : ℚ :=
  match cachedDecimals with
  | some c => c
  | none =>
    if 1 ≤ price then 2
    else if 1/10 ≤ price then 3
    else if 1/100 ≤ price then 4
    else if 1/1000 ≤ price then 5
    else if 1/10000 ≤ price then 6
    else if 1/100000 ≤ price then 7
    else if 1/1000000 ≤ price then 8
    else if 1/10000000 ≤ price then 9
    else 10

/-! ## C8 — ApiService error handling (frontend/src/services/api.ts) -/

/-- The error object thrown by `ApiService.fetch` on a non-ok response. -/
structure ApiError where
  message : String
  status : Nat
deriving DecidableEq

/-- Outcome of the private `fetch` helper: parsed body or thrown error. -/
abbrev FetchResult (α : Type) := Except ApiError α

/-- `ChartDataPoint` from api.ts. -/
structure ChartDataPoint where
  date : String
  price : ℚ
  volume : Option ℚ
deriving DecidableEq

/-- `ChartResponse` from api.ts; `data` may be absent in a malformed body. -/
structure ChartResponse where
  data : Option (List ChartDataPoint)

/-- The payload of `CoinDetailsResponse.data`. -/
structure CoinDetails where
  id : String
  symbol : String
  name : String
  currentPrice : ℚ
deriving DecidableEq

/-- `CoinDetailsResponse` from api.ts. -/
structure CoinDetailsResponse where
  data : Option CoinDetails

/-- `CoinListItem` from api.ts (fields relevant to the embedding). -/
structure CoinListItem where
  id : String
  name : String
  symbol : String
  price : ℚ
deriving DecidableEq

/-- `CoinsListResponse` from api.ts. -/
structure CoinsListResponse where
  data : Option (List CoinListItem)

/-- DND settings payload: `dnd_start_time` / `dnd_end_time`, both nullable. -/
structure DndSettings where
  dnd_start_time : Option String
  dnd_end_time : Option String
deriving DecidableEq

/-- `NotificationResponse` / the persisted alert record (fields of api.ts). -/
structure NotificationRecord where
  id : ℤ
  user_id : ℤ
  crypto_id : String
  crypto_symbol : String
  crypto_name : String
  direction : NotificationDirection
  trigger : NotificationTrigger
  value_type : NotificationValueType
  value : ℚ
  current_price : ℚ
  is_active : Bool
  created_at : ℤ
  expire_time_hours : Option ℤ
deriving DecidableEq

/-- `getCoinChart`: on success returns `response.data || []`; any thrown error
is caught and the empty list is returned. -/
def apiGetCoinChart (r : FetchResult ChartResponse) : FetchResult (List ChartDataPoint) :=
  match r with
  | .ok response => .ok (response.data.getD [])
  | .error _ => .ok []

/-- `getCoinDetails`: on success returns `response.data || null`; any thrown
error is caught and `null` is returned. -/
def apiGetCoinDetails (r : FetchResult CoinDetailsResponse) : FetchResult (Option CoinDetails) :=
  match r with
  | .ok response => .ok response.data
  | .error _ => .ok none

/-- `getCoinsList`: on success returns `response.data || []`; any thrown error
is caught and the empty list is returned. -/
def apiGetCoinsList (r : FetchResult CoinsListResponse) : FetchResult (List CoinListItem) :=
  match r with
  | .ok response => .ok (response.data.getD [])
  | .error _ => .ok []

/-- `getNotifications`: on success returns `response || []`; any thrown error is
caught and the empty list is returned. -/
def apiGetNotifications (r : FetchResult (Option (List NotificationRecord))) :
    FetchResult (List NotificationRecord) :=
  match r with
  | .ok response => .ok (response.getD [])
  | .error _ => .ok []

/-- `getNotification`: the catch block logs and re-throws. -/
def apiGetNotification (r : FetchResult NotificationRecord) : FetchResult NotificationRecord :=
  match r with
  | .ok response => .ok response
  | .error e => .error e

/-- `createNotification`: the catch block logs and re-throws. -/
def apiCreateNotification (r : FetchResult NotificationRecord) : FetchResult NotificationRecord :=
  match r with
  | .ok response => .ok response
  | .error e => .error e

/-- `updateNotification`: the catch block logs and re-throws. -/
def apiUpdateNotification (r : FetchResult NotificationRecord) : FetchResult NotificationRecord :=
  match r with
  | .ok response => .ok response
  | .error e => .error e

/-- `deleteNotification`: the catch block logs and re-throws. -/
def apiDeleteNotification (r : FetchResult Unit) : FetchResult Unit :=
  match r with
  | .ok _ => .ok ()
  | .error e => .error e

/-- `getDndSettings`: on success returns the response; any thrown error is
caught and the neutral default with both bounds null is returned. -/
def apiGetDndSettings (r : FetchResult DndSettings) : FetchResult DndSettings :=
  match r with
  | .ok response => .ok response
  | .error _ => .ok ⟨none, none⟩

/-- `updateDndSettings`: the catch block logs and re-throws. -/
def apiUpdateDndSettings (r : FetchResult DndSettings) : FetchResult DndSettings :=
  match r with
  | .ok response => .ok response
  | .error e => .error e

/-! ## C1 — trigger levels (CreateNotificationPage.tsx, getTriggerLevel and
getTriggerLevels) -/

/-- The `crypto` state of CreateNotificationPage (fields used by the trigger
computation). -/
structure SelectedCrypto where
  id : String
  symbol : String
  name : String
  price : ℚ
deriving DecidableEq

/-- The two reference lines drawn on the chart. -/
structure TriggerLevels where
  upper : Option ℚ
  lower : Option ℚ
deriving DecidableEq

/-- Embedding of `getTriggerLevel` (CreateNotificationPage.tsx lines 381-416).
`value` is the parsed numeric input; an empty or non-numeric input is `none`.
For `percent` the level is `currentPrice * (1 ± value/100)`; every other value
type falls into the else branch `currentPrice ± value`. -/
def getTriggerLevel (crypto : Option SelectedCrypto) (value : Option ℚ)
    (direction : NotificationDirection) (valueType : NotificationValueType) : Option ℚ :=
  match crypto, value with
  | some c, some numValue =>
    if numValue ≤ 0 then none
    else
      let currentPrice := c.price
      match valueType with
      | .percent =>
        match direction with
        | .rise => some (currentPrice * (1 + numValue / 100))
        | .fall => some (currentPrice * (1 - numValue / 100))
        | .both => some (currentPrice * (1 + numValue / 100))
      | _ =>
        match direction with
        | .rise => some (currentPrice + numValue)
        | .fall => some (currentPrice - numValue)
        | .both => some (currentPrice + numValue)
  | _, _ => none

/-- Embedding of `getTriggerLevels` (CreateNotificationPage.tsx lines 419-460):
the `price` value type is handled first and uses the entered price directly;
`both` produces a symmetric pair; `rise`/`fall` delegate to `getTriggerLevel`. -/
def getTriggerLevels (crypto : Option SelectedCrypto) (value : Option ℚ)
    (direction : NotificationDirection) (valueType : NotificationValueType) : TriggerLevels :=
  match crypto, value with
  | some c, some numValue =>
    if numValue ≤ 0 then ⟨none, none⟩
    else
      let currentPrice := c.price
      match valueType with
      | .price =>
        match direction with
        | .rise => ⟨some numValue, none⟩
        | .fall => ⟨none, some numValue⟩
        | .both => ⟨some numValue, some numValue⟩
      | _ =>
        match direction with
        | .both =>
          match valueType with
          | .percent =>
            ⟨some (currentPrice * (1 + numValue / 100)),
             some (currentPrice * (1 - numValue / 100))⟩
          | _ => ⟨some (currentPrice + numValue), some (currentPrice - numValue)⟩
        | .rise => ⟨getTriggerLevel crypto value direction valueType, none⟩
        | .fall => ⟨none, getTriggerLevel crypto value direction valueType⟩
  | _, _ => ⟨none, none⟩

/-- The target-level table written from the specification text: `percent` gives
`r * (1 ± v/100)`, `absolute` gives `r ± v`, `price` gives `v` itself; `rise`
produces only the rise (upper) target, `fall` only the fall (lower) target, and
`both` produces both from the same value. -/
def specTriggerLevels (direction : NotificationDirection)
    (valueType : NotificationValueType) (r v : ℚ) : TriggerLevels :=
  match valueType, direction with
  | .percent, .rise => ⟨some (r * (1 + v / 100)), none⟩
  | .percent, .fall => ⟨none, some (r * (1 - v / 100))⟩
  | .percent, .both => ⟨some (r * (1 + v / 100)), some (r * (1 - v / 100))⟩
  | .absolute, .rise => ⟨some (r + v), none⟩
  | .absolute, .fall => ⟨none, some (r - v)⟩
  | .absolute, .both => ⟨some (r + v), some (r - v)⟩
  | .price, .rise => ⟨some v, none⟩
  | .price, .fall => ⟨none, some v⟩
  | .price, .both => ⟨some v, some v⟩

/-! ## C3 — quiet hours (unnamed/part_005 handleSave, MainPage.tsx
loadDndSettings) -/

/-- What the main page shows for the quiet-hours window: a formatted window or
the literal 'Always'. -/
inductive DndDisplay where
  | always
  | window (startTime endTime : String)
deriving DecidableEq

/-- JavaScript truthiness of a nullable string: `null` and the empty string
are falsy, every other string is truthy. -/
def jsTruthyStr (s : Option String) : Bool :=
  match s with
  | none => false
  | some str => !str.isEmpty

/-- Embedding of the payload built by `handleSave` (DndSettingsPage revision
in unnamed/part_005 lines 63-109): with the toggle off both times are sent as
null, otherwise the picked times are sent. -/
def dndSaveRequest (isDndEnabled : Bool) (startTime endTime : String) : DndSettings :=
  ⟨if isDndEnabled then some startTime else none,
   if isDndEnabled then some endTime else none⟩

/-- Embedding of `loadDndSettings` (MainPage.tsx lines 57-106): the window is
shown only when `settings.dnd_start_time && settings.dnd_end_time` is truthy,
otherwise the display is reset to 'Always'. -/
def loadDndDisplay (settings : DndSettings) : DndDisplay :=
  if jsTruthyStr settings.dnd_start_time && jsTruthyStr settings.dnd_end_time then
    DndDisplay.window (settings.dnd_start_time.getD "") (settings.dnd_end_time.getD "")
  else
    DndDisplay.always

/-! ## C4 — expire-time options (CreateNotificationPage.tsx lines 56-66 and
the expire-time dropdown onSelect, lines 1079-1089) -/

/-- One dropdown option: a display label and a string value. -/
structure DropdownOption where
  label : String
  value : String
deriving DecidableEq

/-- `EXPIRE_TIME_OPTIONS` from CreateNotificationPage.tsx. -/
def EXPIRE_TIME_OPTIONS : List DropdownOption :=
  [⟨"No expiration", "null"⟩, ⟨"1 hour", "1"⟩, ⟨"2 hours", "2"⟩, ⟨"4 hours", "4"⟩,
   ⟨"8 hours", "8"⟩, ⟨"12 hours", "12"⟩, ⟨"24 hours", "24"⟩, ⟨"48 hours", "48"⟩,
   ⟨"72 hours", "72"⟩]

/-- Numeric value of a digit string. -/
def digitsVal (ds : List Char) : ℕ :=
  ds.foldl (fun a c => a * 10 + (c.toNat - 48)) 0

/-- Embedding of `parseInt(s, 10)`: an optional sign followed by the longest
digit prefix; no leading digits parse as NaN (`none`).  The whitespace
trimming and radix-prefix handling of parseInt cannot arise from the dropdown
values and are not modelled. -/
def jsParseInt (s : String) : Option ℤ :=
  let core : List Char → Option ℕ := fun cs =>
    let ds := cs.takeWhile Char.isDigit
    if ds.isEmpty then none else some (digitsVal ds)
  match s.data with
  | '-' :: rest => (core rest).map (fun n => -(n : ℤ))
  | '+' :: rest => (core rest).map (fun n => (n : ℤ))
  | cs => (core cs).map (fun n => (n : ℤ))

/-- The `onSelect` handler of the expire-time dropdown: the value 'null'
selects no expiration, any other value is parsed with `parseInt(val, 10)`.
NaN cannot arise from the dropdown's own option values and is collapsed into
`none`. -/
def selectExpireTime (val : String) : Option ℤ :=
  if val = "null" then none else jsParseInt val

/-- The expire-time states reachable in the client: the initial null state of
`useState`, and any state produced by selecting one of the dropdown options
(the edit-mode load replays a previously submitted client state and adds
nothing new). -/
inductive ExpireTimeReachable : Option ℤ → Prop where
  | init : ExpireTimeReachable none
  | select (val : String) (hval : val ∈ EXPIRE_TIME_OPTIONS.map DropdownOption.value)
      (prev : Option ℤ) (hprev : ExpireTimeReachable prev) :
      ExpireTimeReachable (selectExpireTime val)

/-! ## C5 — update request frame (api.ts lines 67-74, CreateNotificationPage
edit branch lines 285-293) -/

/-- `UpdateNotificationRequest` from api.ts: all the fields an update can
carry, each optional. -/
structure UpdateNotificationRequest where
  direction : Option NotificationDirection
  trigger : Option NotificationTrigger
  value_type : Option NotificationValueType
  value : Option ℚ
  is_active : Option Bool
  expire_time_hours : Option (Option ℤ)
deriving DecidableEq

/-- Modelled from the spec: the backend endpoint applying an update is not
under the sources; per the API schema it overwrites exactly the fields present
in the request and leaves every other column of the alert untouched. -/
def applyUpdate (n : NotificationRecord) (u : UpdateNotificationRequest) : NotificationRecord :=
  { n with
    direction := u.direction.getD n.direction
    trigger := u.trigger.getD n.trigger
    value_type := u.value_type.getD n.value_type
    value := u.value.getD n.value
    is_active := u.is_active.getD n.is_active
    expire_time_hours := u.expire_time_hours.getD n.expire_time_hours }

/-- The payload sent by `handleCreate` in edit mode: direction, trigger,
value_type, value and expire_time_hours from the form state; `is_active` is
not part of the payload. -/
def editModeUpdateRequest (direction : NotificationDirection)
    (trigger : NotificationTrigger) (valueType : NotificationValueType)
    (numValue : ℚ) (expireTime : Option ℤ) : UpdateNotificationRequest :=
  ⟨some direction, some trigger, some valueType, some numValue, none, some expireTime⟩

/-! ## C2 — Price Cache last-write-wins (spec sections 4.1 and 8; the backend
cache is not under the sources) -/

/-- Modelled from the spec: one price observation (`PriceSample`). -/
structure PriceSample where
  price : ℚ
  volume : Option ℚ
  observed_at : ℤ
deriving DecidableEq

/-- Cache key: `(asset_id, source_kind)`. -/
abbrev CacheKey := String × String

/-- Modelled from the spec: the Price Cache, an association list with at most
one live sample per `(asset_id, source_kind)` key. -/
def PriceCache := List (CacheKey × PriceSample)

/-- The empty cache. -/
def PriceCache.empty : PriceCache := []

/-- Modelled from the spec: `put(asset_id, source_kind, sample)` stores the
sample if its `observed_at` is newer than the currently stored sample for the
key; otherwise it is a no-op. -/
def PriceCache.put : PriceCache → CacheKey → PriceSample → PriceCache
  | [], k, s => [(k, s)]
  | (k', s') :: rest, k, s =>
    if k' = k then
      if s'.observed_at < s.observed_at then (k', s) :: rest else (k', s') :: rest
    else (k', s') :: PriceCache.put rest k s

/-- Modelled from the spec: `get(asset_id, source_kind)`; a missing key is a
legitimate no-data-yet result. -/
def PriceCache.get : PriceCache → CacheKey → Option PriceSample
  | [], _ => none
  | (k', s') :: rest, k => if k' = k then some s' else PriceCache.get rest k

/-! ## C6 and C7 — timestamp conversion and axis formatting
(chartTimeUtils.ts, chartUtils.ts, unnamed/part_002, unnamed/part_003) -/

/-- A wall-clock reading "YYYY-MM-DD HH:MM", as its parsed numeric
components. -/
structure WallClock where
  year : ℕ
  month : ℕ
  day : ℕ
  hour : ℕ
  minute : ℕ
deriving DecidableEq

/-- Gregorian leap year. -/
def isLeapYear (y : ℕ) : Bool :=
  (y % 4 == 0 && y % 100 != 0) || y % 400 == 0

/-- Days in a month of a given year (months 1-12). -/
def daysInMonth (y m : ℕ) : ℕ :=
  if m = 2 then (if isLeapYear y then 29 else 28)
  else if m = 4 ∨ m = 6 ∨ m = 9 ∨ m = 11 then 30
  else 31

/-- Days strictly before year `y` counted from 0001-01-01. -/
def daysBeforeYear (y : ℕ) : ℕ :=
  365 * (y - 1) + ((y - 1) / 4 + (y - 1) / 400 - (y - 1) / 100)

/-- Days strictly before month `m` within year `y`. -/
def daysBeforeMonth (y m : ℕ) : ℕ :=
  let feb := if isLeapYear y then 29 else 28
  match m with
  | 1 => 0
  | 2 => 31
  | 3 => 31 + feb
  | 4 => 62 + feb
  | 5 => 92 + feb
  | 6 => 123 + feb
  | 7 => 153 + feb
  | 8 => 184 + feb
  | 9 => 215 + feb
  | 10 => 245 + feb
  | 11 => 276 + feb
  | 12 => 306 + feb
  | _ => 0

/-- Day index of a wall-clock reading; day 0 is 0001-01-01. -/
def dayNumber (w : WallClock) : ℕ :=
  daysBeforeYear w.year + daysBeforeMonth w.year w.month + (w.day - 1)

/-- Minute encoding of a wall-clock reading: minutes since 0001-01-01 00:00.
The encoding is injective on valid readings, so a reading and its encoding are
used interchangeably. -/
def wallMinutesNat (w : WallClock) : ℕ :=
  (dayNumber w * 24 + w.hour) * 60 + w.minute

/-- Validity of a reading: in-range Gregorian components. -/
def WallClock.valid (w : WallClock) : Prop :=
  1 ≤ w.year ∧ 1 ≤ w.month ∧ w.month ≤ 12 ∧ 1 ≤ w.day ∧
    w.day ≤ daysInMonth w.year w.month ∧ w.hour < 24 ∧ w.minute < 60

/-- Gregorian date of a day index (inverse of `dayNumber` on valid dates), by
the era-based civil-from-days computation; used to read day and month off a
shifted instant. -/
def dateOfDayNumber (n : ℕ) : ℕ × ℕ × ℕ :=
  let z := n + 306
  let doe := z % 146097
  let era := z / 146097
  let yoe := (doe - doe / 1460 + doe / 36524 - doe / 146096) / 365
  let doy := doe - (365 * yoe + yoe / 4 - yoe / 100)
  let mp := (5 * doy + 2) / 153
  let d := doy - (153 * mp + 2) / 5 + 1
  let m := if mp < 10 then mp + 3 else mp - 9
  ((if m ≤ 2 then yoe + era * 400 + 1 else yoe + era * 400), m, d)

/-! The user's timezone is modelled as a fixed offset `off` in minutes east of
UTC.  A JS `Date` is the instant it denotes, as minutes since the epoch of the
encoding above. -/

/-- `new Date(y, m-1, d, h, min)`: components interpreted as local wall-clock
time denote the instant `wall − off`. -/
def jsDateFromLocal (off : ℤ) (w : WallClock) : ℤ :=
  (wallMinutesNat w : ℤ) - off

/-- `new Date(Date.UTC(y, m-1, d, h, min))`: components interpreted as UTC. -/
def jsDateFromUTC (w : WallClock) : ℤ :=
  (wallMinutesNat w : ℤ)

/-- The wall-clock reading rendered by the local getters (`getFullYear`,
`getMonth`, ..., as formatted back into "YYYY-MM-DD HH:MM"), as its minute
encoding: local wall time is the instant shifted by the offset. -/
def jsLocalWallMinutes (off : ℤ) (t : ℤ) : ℤ :=
  t + off

/-- Embedding of `convertServerDateToLocal` at chartTimeUtils.ts lines 7-27:
the parsed components are fed to the local `Date` constructor and the local
getters are formatted straight back.  Input and output wall-clock readings are
given by their minute encodings. -/
def convertServerDateToLocalV1 (off : ℤ) (w : WallClock) : ℤ :=
  jsLocalWallMinutes off (jsDateFromLocal off w)

/-- Embedding of the alternate revision of `convertServerDateToLocal`
(unnamed/part_002 lines 22-56, plain-format branch): the components are fed to
`Date.UTC` and the local getters are formatted back. -/
def convertServerDateToLocalV2 (off : ℤ) (w : WallClock) : ℤ :=
  jsLocalWallMinutes off (jsDateFromUTC w)

/-- Parsing a rendered "YYYY-MM-DD HH:MM" string as local time in the user's
timezone: the instant it denotes. -/
def parseAsLocalInstant (off : ℤ) (wallEncoding : ℤ) : ℤ :=
  wallEncoding - off

/-- The chart period type: '1d' | '7d' | '30d' | '1y'. -/
inductive ChartPeriod where
  | p1d
  | p7d
  | p30d
  | p1y
deriving DecidableEq

/-- `String(n).padStart(2, '0')` for hour rendering. -/
def padTwo (n : ℕ) : String :=
  if n < 10 then "0" ++ toString n else toString n

/-- The English month abbreviations used by both formatDateForAxis
revisions. -/
def monthNames : List String :=
  ["Jan", "Feb", "Mar", "Apr", "May", "Jun", "Jul", "Aug", "Sep", "Oct", "Nov", "Dec"]

/-- Embedding of the formatDateForAxis revision at unnamed/part_003 lines
538-585: the parsed components are interpreted as UTC, shifted by the fixed
Moscow offset (+3 h), and the shifted instant's UTC fields are formatted; for
'1d' the Moscow hour is floored to a multiple of 3. -/
def formatDateForAxisMsk (w : WallClock) (period : ChartPeriod) : String :=
  let tMsk : ℕ := wallMinutesNat w + 3 * 60
  match period with
  | ChartPeriod.p1d =>
    let mskHours := tMsk / 60 % 24
    let roundedHour := mskHours / 3 * 3 % 24
    padTwo roundedHour ++ ":00"
  | _ =>
    let date := dateOfDayNumber (tMsk / 1440)
    let mskMonth := date.2.1
    let mskDay := date.2.2
    monthNames.getD (mskMonth - 1) "" ++ " " ++ toString mskDay

/-- Embedding of the formatDateForAxis revision at chartUtils.ts lines
251-290: no timezone shift; for '1d' the hour is rounded to the nearest
multiple of 3 (rounding up past half the interval), for the other periods the
parsed month and day are shown as is. -/
def formatDateForAxisLocal (w : WallClock) (period : ChartPeriod) : String :=
  match period with
  | ChartPeriod.p1d =>
    let hours := w.hour
    let minutes := w.minute
    let remainder := hours % 3
    let roundedHour :=
      if 2 ≤ remainder ∨ (remainder = 1 ∧ 30 ≤ minutes) then (hours / 3 + 1) * 3
      else hours / 3 * 3
    padTwo (roundedHour % 24) ++ ":00"
  | _ => monthNames.getD (w.month - 1) "" ++ " " ++ toString w.day

/-! ## C9 — getYAxisDomain (chartUtils.ts lines 25-130) -/

/-- The positive prices considered by `getYAxisDomain`
(`data.map(item => item.price).filter(p => p > 0)`). -/
def positivePrices (data : List ChartDataPoint) : List ℚ :=
  (data.map ChartDataPoint.price).filter (fun p => 0 < p)

/-- `Math.min(...prices)` and `Math.max(...prices)` over the nonempty price
list, merged with the trigger levels exactly as in the source: the
`minPrice`/`maxPrice` pair after the `triggerLevels` block.  The `[]` case is
unreachable behind the emptiness guard. -/
def mergedBounds (prices : List ℚ) (triggerLevels : Option TriggerLevels) : ℚ × ℚ :=
  match prices with
  | [] => (0, 0)
  | p :: rest =>
    let minPrice := rest.foldl min p
    let maxPrice := rest.foldl max p
    match triggerLevels with
    | none => (minPrice, maxPrice)
    | some tl =>
      let minPrice1 := match tl.upper with | some u => min minPrice u | none => minPrice
      let maxPrice1 := match tl.upper with | some u => max maxPrice u | none => maxPrice
      let minPrice2 := match tl.lower with | some l => min minPrice1 l | none => minPrice1
      let maxPrice2 := match tl.lower with | some l => max maxPrice1 l | none => maxPrice1
      (minPrice2, maxPrice2)

/-- The source's `avgPrice` local: midpoint of the merged bounds. -/
def avgOf (minPrice maxPrice : ℚ) : ℚ := (minPrice + maxPrice) / 2

/-- The source's `relativeRangePercent` local:
`avgPrice > 0 ? range / avgPrice : 0`. -/
def relRangeOf (minPrice maxPrice : ℚ) : ℚ :=
  if 0 < avgOf minPrice maxPrice then (maxPrice - minPrice) / avgOf minPrice maxPrice else 0

/-- The source's `targetPercent` local: 8% for the 1d period, 15% otherwise. -/
def targetPercentFor (period : ChartPeriod) : ℚ :=
  if period = ChartPeriod.p1d then 0.08 else 0.15

/-- The source's `expansionNeeded` local: `targetRange - dataRange` where
`targetRange = avgPrice * targetPercent` and `dataRange = range`. -/
def expansionNeededOf (minPrice maxPrice : ℚ) (period : ChartPeriod) : ℚ :=
  avgOf minPrice maxPrice * targetPercentFor period - (maxPrice - minPrice)

/-- The source's `offsetFromCenter` local: `dataCenter - rangeCenter`, where
both locals are the same expression `(minPrice + maxPrice) / 2`. -/
def offsetOf (minPrice maxPrice : ℚ) : ℚ :=
  avgOf minPrice maxPrice - (minPrice + maxPrice) / 2

/-- The source's `padding` local of the else branch:
`Math.max(range * 0.05, minPrice * 0.01)`. -/
def paddingOf (minPrice maxPrice : ℚ) : ℚ :=
  max ((maxPrice - minPrice) * 0.05) (minPrice * 0.01)

/-- The expansion/padding stage of `getYAxisDomain`: the `adjustedMin` /
`adjustedMax` computation.  `none` marks the path on which the JS code divides
`0/0`: both numerators `Math.max(0, ±offsetFromCenter)` are identically zero
because `dataCenter` and `rangeCenter` are the same expression, so with
`dataRange = 0` the expansions are NaN and the final domain degenerates to
`[NaN, NaN]`. -/
def adjustedBounds (minPrice maxPrice : ℚ) (period : ChartPeriod) : Option (ℚ × ℚ) :=
  if 0 < avgOf minPrice maxPrice ∧ relRangeOf minPrice maxPrice < targetPercentFor period then
    if 0 < expansionNeededOf minPrice maxPrice period then
      if maxPrice - minPrice = 0 then none
      else
        some (max 0 (minPrice - expansionNeededOf minPrice maxPrice period *
                (1/2 + max 0 (-offsetOf minPrice maxPrice) / (maxPrice - minPrice))),
              maxPrice + expansionNeededOf minPrice maxPrice period *
                (1/2 + max 0 (offsetOf minPrice maxPrice) / (maxPrice - minPrice)))
    else some (minPrice, maxPrice)
  else
    some (max 0 (minPrice - paddingOf minPrice maxPrice),
          maxPrice + paddingOf minPrice maxPrice)

/-- The step ladder of `getYAxisDomain`, chosen from the final range. -/
def stepFor (finalRange : ℚ) : ℚ :=
  if 10000 ≤ finalRange then 2000
  else if 1000 ≤ finalRange then 200
  else if 100 ≤ finalRange then 20
  else if 10 ≤ finalRange then 2
  else if 1 ≤ finalRange then 0.2
  else if 0.1 ≤ finalRange then 0.02
  else if 0.01 ≤ finalRange then 0.002
  else if 0.001 ≤ finalRange then 0.0002
  else if 0.0001 ≤ finalRange then 0.00002
  else if 0.00001 ≤ finalRange then 0.000002
  else if 0.000001 ≤ finalRange then 0.0000002
  else 0.00000002

/-- The source's `step` local at the rounding stage. -/
def stepOf (adjustedMin adjustedMax : ℚ) : ℚ := stepFor (adjustedMax - adjustedMin)

/-- `Math.floor(adjustedMin / step) * step`. -/
def loOf (adjustedMin adjustedMax : ℚ) : ℚ :=
  (⌊adjustedMin / stepOf adjustedMin adjustedMax⌋ : ℚ) * stepOf adjustedMin adjustedMax

/-- `Math.ceil(adjustedMax / step) * step`. -/
def hiOf (adjustedMin adjustedMax : ℚ) : ℚ :=
  (⌈adjustedMax / stepOf adjustedMin adjustedMax⌉ : ℚ) * stepOf adjustedMin adjustedMax

/-- The rounding tail of `getYAxisDomain`: floor/ceil to the step, and if the
bounds collapsed, force them two steps apart. -/
def roundDomain (adjustedMin adjustedMax : ℚ) : ℚ × ℚ :=
  if hiOf adjustedMin adjustedMax ≤ loOf adjustedMin adjustedMax then
    (loOf adjustedMin adjustedMax,
     loOf adjustedMin adjustedMax + stepOf adjustedMin adjustedMax * 2)
  else (loOf adjustedMin adjustedMax, hiOf adjustedMin adjustedMax)

/-- Embedding of `getYAxisDomain`: empty data or no positive prices give
`[0, 1]`; otherwise the price bounds are merged with the trigger levels,
expanded or padded, and rounded to the step.  `none` models the `[NaN, NaN]`
outcome (see `adjustedBounds`). -/
def getYAxisDomain (data : List ChartDataPoint) (period : ChartPeriod)
    (triggerLevels : Option TriggerLevels) : Option (ℚ × ℚ) :=
  if data.isEmpty then some (0, 1)
  else if (positivePrices data).isEmpty then some (0, 1)
  else
    (adjustedBounds (mergedBounds (positivePrices data) triggerLevels).1
        (mergedBounds (positivePrices data) triggerLevels).2 period).map
      (fun ab => roundDomain ab.1 ab.2)

/-! ## Theorems -/

/-- C1: for a selected coin with reference price `r > 0` and a parsed numeric
value `v > 0`, the trigger levels computed by the client
(`getTriggerLevels`, with `getTriggerLevel` supplying the single-direction
percent/absolute cases) coincide with the specification's target table:
percent gives `r * (1 ± v/100)`, absolute gives `r ± v`, price gives `v`
itself, and for direction `both` with percent or absolute both an upper and a
lower target are produced from the same value. -/
theorem trigger_levels_match_spec (c : SelectedCrypto) (v : ℚ)
    (d : NotificationDirection) (vt : NotificationValueType)
    (hr : 0 < c.price) (hv : 0 < v) :
    getTriggerLevels (some c) (some v) d vt = specTriggerLevels d vt c.price v := by
  cases d <;> cases vt <;>
    simp [getTriggerLevels, getTriggerLevel, specTriggerLevels, hv.not_le]

/-- Witness for C1 at a concrete input: both hypotheses hold at price 100 and
value 10, and the computed levels match the spec table there. -/
theorem trigger_levels_match_spec_witness :
    (0:ℚ) < (⟨"bitcoin", "BTC", "Bitcoin", 100⟩ : SelectedCrypto).price ∧ (0:ℚ) < 10 ∧
      getTriggerLevels (some ⟨"bitcoin", "BTC", "Bitcoin", 100⟩) (some 10)
          NotificationDirection.rise NotificationValueType.percent
        = specTriggerLevels NotificationDirection.rise NotificationValueType.percent 100 10 :=
  ⟨by norm_num, by norm_num,
    trigger_levels_match_spec ⟨"bitcoin", "BTC", "Bitcoin", 100⟩ 10
      NotificationDirection.rise NotificationValueType.percent (by norm_num) (by norm_num)⟩

/-- C8: when the underlying request fails, every read-only display method of
ApiService returns its neutral default (`getCoinChart`, `getCoinsList`,
`getNotifications` the empty list, `getCoinDetails` null, `getDndSettings` the
both-null settings), while `getNotification` and every state-changing method
(`createNotification`, `updateNotification`, `deleteNotification`,
`updateDndSettings`) re-throw the error. -/
theorem api_error_handling (e : ApiError) :
    apiGetCoinChart (.error e) = .ok [] ∧
    apiGetCoinsList (.error e) = .ok [] ∧
    apiGetNotifications (.error e) = .ok [] ∧
    apiGetCoinDetails (.error e) = .ok none ∧
    apiGetDndSettings (.error e) = .ok ⟨none, none⟩ ∧
    apiGetNotification (.error e) = .error e ∧
    apiCreateNotification (.error e) = .error e ∧
    apiUpdateNotification (.error e) = .error e ∧
    apiDeleteNotification (.error e) = .error e ∧
    apiUpdateDndSettings (.error e) = .error e :=
  ⟨rfl, rfl, rfl, rfl, rfl, rfl, rfl, rfl, rfl, rfl⟩

/-- Unfolding equation for `getPriceDecimals` with no cached value. -/
theorem getPriceDecimals_none_eq (p : ℚ) :
    getPriceDecimals p none =
      (if 1 ≤ p then 2
      else if 1/10 ≤ p then 3
      else if 1/100 ≤ p then 4
      else if 1/1000 ≤ p then 5
      else if 1/10000 ≤ p then 6
      else if 1/100000 ≤ p then 7
      else if 1/1000000 ≤ p then 8
      else if 1/10000000 ≤ p then 9
      else 10) := rfl

/-- C10: without a cached value, `getPriceDecimals` returns one of the integers
2 through 10, it is antitone in the price, and a supplied cached value is
returned verbatim. -/
theorem price_decimals_properties :
    (∀ p : ℚ, getPriceDecimals p none ∈ ([2, 3, 4, 5, 6, 7, 8, 9, 10] : List ℚ)) ∧
    (∀ p1 p2 : ℚ, p2 ≤ p1 → getPriceDecimals p1 none ≤ getPriceDecimals p2 none) ∧
    (∀ p c : ℚ, getPriceDecimals p (some c) = c) := by
  refine ⟨?_, ?_, ?_⟩
  · intro p
    rw [getPriceDecimals_none_eq]
    split_ifs <;> simp
  · intro p1 p2 hle
    rw [getPriceDecimals_none_eq, getPriceDecimals_none_eq]
    split_ifs <;> (try norm_num) <;> linarith
  · intro p c
    rfl

/-- Witness for C10's antitone part at a concrete pair of prices. -/
theorem price_decimals_properties_witness :
    ((1:ℚ)/2 ≤ 2) ∧ getPriceDecimals 2 none ≤ getPriceDecimals (1/2) none :=
  ⟨by norm_num, price_decimals_properties.2.1 2 (1/2) (by norm_num)⟩

/-- C3: quiet hours are on exactly when both bounds are set — saving with the
feature disabled sends both times as null, the main page shows 'Always'
whenever the stored settings do not have both bounds non-null, and a window is
shown only when both bounds are present. -/
theorem quiet_hours_both_or_always :
    (∀ startTime endTime : String, dndSaveRequest false startTime endTime = ⟨none, none⟩) ∧
    (∀ st : DndSettings, ¬(st.dnd_start_time ≠ none ∧ st.dnd_end_time ≠ none) →
      loadDndDisplay st = DndDisplay.always) ∧
    (∀ (st : DndSettings) (a b : String), loadDndDisplay st = DndDisplay.window a b →
      st.dnd_start_time ≠ none ∧ st.dnd_end_time ≠ none) := by
  refine ⟨fun _ _ => rfl, ?_, ?_⟩
  · intro st hne
    obtain ⟨os, oe⟩ := st
    cases os <;> cases oe <;> simp [loadDndDisplay, jsTruthyStr] <;> tauto
  · intro st a b hwin
    obtain ⟨os, oe⟩ := st
    cases os <;> cases oe <;> simp [loadDndDisplay, jsTruthyStr] at hwin ⊢

/-- Witness for C3 at a concrete store state: with only the end bound set the
main page shows 'Always'. -/
theorem quiet_hours_both_or_always_witness :
    loadDndDisplay ⟨none, some "07:00"⟩ = DndDisplay.always :=
  quiet_hours_both_or_always.2.1 ⟨none, some "07:00"⟩ (by simp)

/-- C4: every expire-time state reachable through the client dropdown is
either null (no expiration) or one of the positive hour counts 1, 2, 4, 8, 12,
24, 48, 72 — hence whenever it is present, `created_at + expire_time_hours` is
at least `created_at`. -/
theorem expire_time_hours_constrained (s : Option ℤ) (h : ExpireTimeReachable s) :
    s = none ∨ ∃ hrs : ℤ, s = some hrs ∧ hrs ∈ ([1, 2, 4, 8, 12, 24, 48, 72] : List ℤ) ∧
      0 < hrs ∧ ∀ created_at : ℤ, created_at ≤ created_at + hrs := by
  induction h with
  | init => exact Or.inl rfl
  | select val hval prev hprev ih =>
    clear ih hprev
    simp [EXPIRE_TIME_OPTIONS] at hval
    rcases hval with h | h | h | h | h | h | h | h | h <;> subst h
    · exact Or.inl (by decide)
    · exact Or.inr ⟨1, by decide, by decide, by decide, fun c => by omega⟩
    · exact Or.inr ⟨2, by decide, by decide, by decide, fun c => by omega⟩
    · exact Or.inr ⟨4, by decide, by decide, by decide, fun c => by omega⟩
    · exact Or.inr ⟨8, by decide, by decide, by decide, fun c => by omega⟩
    · exact Or.inr ⟨12, by decide, by decide, by decide, fun c => by omega⟩
    · exact Or.inr ⟨24, by decide, by decide, by decide, fun c => by omega⟩
    · exact Or.inr ⟨48, by decide, by decide, by decide, fun c => by omega⟩
    · exact Or.inr ⟨72, by decide, by decide, by decide, fun c => by omega⟩

/-- Witness for C4: the state after selecting the '4 hours' option is
reachable and satisfies the constraint. -/
theorem expire_time_hours_constrained_witness :
    selectExpireTime "4" = none ∨
      ∃ hrs : ℤ, selectExpireTime "4" = some hrs ∧
        hrs ∈ ([1, 2, 4, 8, 12, 24, 48, 72] : List ℤ) ∧
        0 < hrs ∧ ∀ created_at : ℤ, created_at ≤ created_at + hrs :=
  expire_time_hours_constrained (selectExpireTime "4")
    (ExpireTimeReachable.select "4" (by decide) none ExpireTimeReachable.init)

/-- C5: the update request type carries only direction, trigger, value_type,
value, is_active and expire_time_hours, the edit path sends only fields among
those (leaving `is_active` unset), and applying any update leaves the alert's
user_id, asset identity, reference price and creation time unchanged. -/
theorem update_frame_preserves_identity :
    (∀ (n : NotificationRecord) (u : UpdateNotificationRequest),
      (applyUpdate n u).user_id = n.user_id ∧
      (applyUpdate n u).crypto_id = n.crypto_id ∧
      (applyUpdate n u).crypto_symbol = n.crypto_symbol ∧
      (applyUpdate n u).crypto_name = n.crypto_name ∧
      (applyUpdate n u).current_price = n.current_price ∧
      (applyUpdate n u).created_at = n.created_at) ∧
    (∀ (d : NotificationDirection) (t : NotificationTrigger)
        (vt : NotificationValueType) (v : ℚ) (e : Option ℤ),
      (editModeUpdateRequest d t vt v e).is_active = none) :=
  ⟨fun _ _ => ⟨rfl, rfl, rfl, rfl, rfl, rfl⟩, fun _ _ _ _ _ => rfl⟩

/-- C2: for two puts to the same key with timestamps `t1 < t2`, either order of
application leaves the cache holding the `t2` sample, and a put that is not
newer than the stored sample is a no-op. -/
theorem price_cache_last_write_wins :
    (∀ (k : CacheKey) (s1 s2 : PriceSample), s1.observed_at < s2.observed_at →
      ((PriceCache.empty.put k s1).put k s2).get k = some s2 ∧
      ((PriceCache.empty.put k s2).put k s1).get k = some s2) ∧
    (∀ (c : PriceCache) (k : CacheKey) (s cur : PriceSample),
      c.get k = some cur → s.observed_at ≤ cur.observed_at → c.put k s = c) := by
  constructor
  · intro k s1 s2 h
    constructor
    · simp [PriceCache.empty, PriceCache.put, PriceCache.get, h]
    · simp [PriceCache.empty, PriceCache.put, PriceCache.get, not_lt.mpr h.le]
  · intro c k s cur hget hle
    induction c with
    | nil => simp [PriceCache.get] at hget
    | cons hd rest ih =>
      obtain ⟨k', s'⟩ := hd
      by_cases hk : k' = k
      · subst hk
        simp [PriceCache.get] at hget
        subst hget
        simp [PriceCache.put, not_lt.mpr hle]
      · simp [PriceCache.get, hk] at hget
        simp [PriceCache.put, hk, ih hget]

/-- Witness for C2 at concrete samples with timestamps 1 < 2: the newer sample
wins in the order old-then-new. -/
theorem price_cache_last_write_wins_witness :
    ((1:ℤ) < 2) ∧
      ((PriceCache.empty.put ("bitcoin", "binance") ⟨100, none, 1⟩).put
          ("bitcoin", "binance") ⟨101, none, 2⟩).get ("bitcoin", "binance") =
        some ⟨101, none, 2⟩ :=
  ⟨by decide,
    (price_cache_last_write_wins.1 ("bitcoin", "binance") ⟨100, none, 1⟩ ⟨101, none, 2⟩
      (by decide)).1⟩

/-- Sanity check: civil-from-days inverts the day numbering at sample dates. -/
example : dateOfDayNumber (dayNumber ⟨2025, 12, 17, 0, 0⟩) = (2025, 12, 17) := by decide

example : dateOfDayNumber (dayNumber ⟨2024, 2, 29, 0, 0⟩) = (2024, 2, 29) := by decide

example : dateOfDayNumber (dayNumber ⟨2025, 3, 1, 0, 0⟩) = (2025, 3, 1) := by decide

/-- C6 counterexample: for a user at UTC offset +60 minutes, parsing the
result of the chartTimeUtils.ts lines 7-27 revision as local time does not
recover the original UTC instant of "2025-01-01 12:00". -/
theorem convert_server_date_roundtrip_fails :
    parseAsLocalInstant 60 (convertServerDateToLocalV1 60 ⟨2025, 1, 1, 12, 0⟩) ≠
      jsDateFromUTC ⟨2025, 1, 1, 12, 0⟩ := by
  decide

/-- C6 (amended): the revision at chartTimeUtils.ts lines 7-27 returns the
server wall-clock unchanged — it performs no timezone conversion — so parsing
its result as local time yields the original instant shifted by minus the
user's UTC offset, equal to the original instant only at offset zero; the
alternate revision in unnamed/part_002 does satisfy the round-trip for every
offset. -/
theorem convert_server_date_local_amended :
    (∀ (off : ℤ) (w : WallClock),
      convertServerDateToLocalV1 off w = (wallMinutesNat w : ℤ) ∧
      parseAsLocalInstant off (convertServerDateToLocalV1 off w) = jsDateFromUTC w - off) ∧
    (∀ (off : ℤ) (w : WallClock),
      parseAsLocalInstant off (convertServerDateToLocalV2 off w) = jsDateFromUTC w) := by
  constructor
  · intro off w
    constructor
    · unfold convertServerDateToLocalV1 jsLocalWallMinutes jsDateFromLocal
      ring
    · unfold parseAsLocalInstant convertServerDateToLocalV1 jsLocalWallMinutes
        jsDateFromLocal jsDateFromUTC
      ring
  · intro off w
    unfold parseAsLocalInstant convertServerDateToLocalV2 jsLocalWallMinutes jsDateFromUTC
    ring

/-- C7: the two formatDateForAxis revisions are not extensionally equal — at
the timestamp "2025-12-17 18:12" with period '1d' the Moscow-offset revision
renders "21:00" while the no-offset revision renders "18:00". -/
theorem format_axis_revisions_differ :
    ∃ (w : WallClock) (p : ChartPeriod),
      formatDateForAxisMsk w p ≠ formatDateForAxisLocal w p :=
  ⟨⟨2025, 12, 17, 18, 12⟩, ChartPeriod.p1d, by decide⟩

/-- The rounding step is always positive. -/
theorem stepFor_pos (r : ℚ) : 0 < stepFor r := by
  unfold stepFor
  split_ifs <;> norm_num

/-- The NaN path of the adjustment stage is taken only when the merged bounds
coincide. -/
theorem adjustedBounds_none (minPrice maxPrice : ℚ) (period : ChartPeriod)
    (h : adjustedBounds minPrice maxPrice period = none) : minPrice = maxPrice := by
  unfold adjustedBounds at h
  split_ifs at h with h1 h2 h3
  · linarith

/-- Every non-NaN adjusted lower bound is nonnegative. -/
theorem adjustedBounds_nonneg (minPrice maxPrice : ℚ) (period : ChartPeriod)
    (x y : ℚ) (h : adjustedBounds minPrice maxPrice period = some (x, y)) : 0 ≤ x := by
  unfold adjustedBounds at h
  split_ifs at h with h1 h2 h3
  · simp only [Option.some.injEq, Prod.mk.injEq] at h
    rw [← h.1]
    exact le_max_left 0 _
  · -- the expansionNeeded ≤ 0 branch is unreachable under the outer condition
    exfalso
    obtain ⟨havg, hrel⟩ := h1
    rw [relRangeOf, if_pos havg] at hrel
    have hlt := (div_lt_iff₀ havg).mp hrel
    apply h2
    rw [expansionNeededOf]
    nlinarith
  · simp only [Option.some.injEq, Prod.mk.injEq] at h
    rw [← h.1]
    exact le_max_left 0 _

/-- Rounding a nonnegative lower bound yields a valid, non-collapsed pair. -/
theorem roundDomain_valid (a b : ℚ) (ha : 0 ≤ a) :
    0 ≤ (roundDomain a b).1 ∧ (roundDomain a b).1 < (roundDomain a b).2 := by
  have hstep : 0 < stepOf a b := stepFor_pos _
  have hlo : 0 ≤ loOf a b := by
    rw [loOf]
    apply mul_nonneg _ hstep.le
    exact_mod_cast Int.floor_nonneg.mpr (div_nonneg ha hstep.le)
  unfold roundDomain
  split_ifs with hcol
  · refine ⟨hlo, ?_⟩
    show loOf a b < loOf a b + stepOf a b * 2
    linarith
  · refine ⟨hlo, ?_⟩
    show loOf a b < hiOf a b
    exact not_le.mp hcol

/-- C9 (amended): getYAxisDomain returns a pair `[lo, hi]` with
`0 ≤ lo < hi` for every input except when the merged considered values
(positive prices together with the trigger levels) all coincide — on that path
the source divides 0/0 and the domain degenerates to `[NaN, NaN]`, modelled as
`none`. -/
theorem y_axis_domain_valid (data : List ChartDataPoint) (period : ChartPeriod)
    (triggerLevels : Option TriggerLevels) :
    (∃ lo hi : ℚ, getYAxisDomain data period triggerLevels = some (lo, hi) ∧
      0 ≤ lo ∧ lo < hi) ∨
    (getYAxisDomain data period triggerLevels = none ∧
      (mergedBounds (positivePrices data) triggerLevels).1 =
        (mergedBounds (positivePrices data) triggerLevels).2) := by
  unfold getYAxisDomain
  by_cases hempty : data.isEmpty
  · exact Or.inl ⟨0, 1, by simp [hempty], le_refl 0, by norm_num⟩
  · by_cases hprices : (positivePrices data).isEmpty
    · exact Or.inl ⟨0, 1, by simp [hempty, hprices], le_refl 0, by norm_num⟩
    · simp only [hempty, hprices, if_false]
      cases hadj : adjustedBounds (mergedBounds (positivePrices data) triggerLevels).1
          (mergedBounds (positivePrices data) triggerLevels).2 period with
      | none =>
        exact Or.inr ⟨by simp [hadj], adjustedBounds_none _ _ _ hadj⟩
      | some ab =>
        obtain ⟨a, b⟩ := ab
        have ha : 0 ≤ a := adjustedBounds_nonneg _ _ _ _ _ hadj
        obtain ⟨h1, h2⟩ := roundDomain_valid a b ha
        exact Or.inl ⟨(roundDomain a b).1, (roundDomain a b).2, by simp [hadj], h1, h2⟩

/-- C9 counterexample: on a one-point chart (a single positive price, no
trigger levels) the claimed `0 ≤ lo < hi` domain does not exist — the source
computes `0/0` and returns `[NaN, NaN]`. -/
theorem y_axis_domain_claim_false :
    ¬ ∃ lo hi : ℚ,
      getYAxisDomain [⟨"2025-01-01 00:00", 100, none⟩] ChartPeriod.p7d none = some (lo, hi) ∧
        0 ≤ lo ∧ lo < hi := by
  have hpos : positivePrices [⟨"2025-01-01 00:00", 100, none⟩] = [100] := by
    norm_num [positivePrices]
  have hne : ChartPeriod.p7d ≠ ChartPeriod.p1d := by decide
  have hadj : adjustedBounds 100 100 ChartPeriod.p7d = none := by
    norm_num [adjustedBounds, avgOf, relRangeOf, targetPercentFor, expansionNeededOf, hne]
  have hnone :
      getYAxisDomain [⟨"2025-01-01 00:00", 100, none⟩] ChartPeriod.p7d none = none := by
    simp [getYAxisDomain, hpos, mergedBounds, hadj]
  intro hcl
  obtain ⟨lo, hi, heq, hle, hlt⟩ := hcl
  rw [hnone] at heq
  exact Option.noConfusion heq

end CryptoWatcher
